import Mathlib

/-!
Shallow embedding of the sandboxed code-execution broker (Rust workspace:
`repl-api`, `container-api`, `service-registry` crates) together with proofs
about the embedded operations.

Conventions used throughout:
* machine floats (`f64`) are embedded as exact rationals (`ℚ`); all concrete
  values appearing in the theorems are exactly representable in `f64` and the
  operations involved (add, mul, sub, div, min, compare) are exact on them;
* wall-clock time (`Instant`) is embedded by passing the elapsed seconds
  between two `Instant::now()` readings explicitly as a `ℚ` argument;
* network I/O and the container runtime are external collaborators: their
  observable outcomes are passed in as explicit data (lists of results), and
  embedded operations additionally report which runtime calls they issued;
* `Regex::is_match` of the fixed pattern catalogue is embedded as a boolean
  matcher per pattern (gaps `.*` are matched as an arbitrary gap between the
  literal pieces, `\s+` as a single space); no theorem below depends on the
  fine semantics of the individual matchers.
-/

/-- Drop everything up to and including the first occurrence of `pat` in
`hay`; `none` when `pat` does not occur. -/
def dropThrough (pat : List Char) : List Char → Option (List Char)
  | [] => if pat.isPrefixOf ([] : List Char) then some [] else none
  | c :: t =>
    if pat.isPrefixOf (c :: t) then some ((c :: t).drop pat.length)
    else dropThrough pat t

/-- Boolean substring test on strings, mirroring Rust `str::contains`. -/
def containsStr (s pat : String) : Bool :=
  (dropThrough pat.toList s.toList).isSome

/-- All the given pieces occur in `hay`, in order and without overlap.
Embeds an unanchored regex of literal pieces separated by gaps. -/
def containsInOrderAux : List Char → List (List Char) → Bool
  | _, [] => true
  | hay, p :: ps =>
    match dropThrough p hay with
    | some rest => containsInOrderAux rest ps
    | none => false

/-- String-level front end of `containsInOrderAux`. -/
def containsInOrder (s : String) (pats : List String) : Bool :=
  containsInOrderAux s.toList (pats.map String.toList)

/-- Rust `str::lines`: split on newline, dropping one trailing empty piece
and a trailing carriage return on each line. -/
def rustLines (s : String) : List String :=
  if s = "" then []
  else
    let parts := s.splitOn "\n"
    let parts := if parts.getLast? = some "" then parts.dropLast else parts
    parts.map (fun l => if l.endsWith "\r" then l.dropRight 1 else l)

/-- A server-push event: axum `Event::default().data(...)` or
`Event::default().event("done").data(...)`. -/
inductive Ev where
  | data (s : String)
  | done (s : String)
deriving DecidableEq

/-- Recognizer for the terminal event. -/
def Ev.isDone : Ev → Bool
  | .done _ => true
  | .data _ => false

namespace ReplApi

/-- The `Language` enum of `repl-api/src/lib.rs`. -/
inductive Language where
  | Python
  | Node
  | Rust
  | Go
  | Ruby
deriving DecidableEq, BEq

/-- Embeds `Language::container_image`. -/
def Language.container_image : Language → String
  | .Python => "python:3.11-slim"
  | .Node => "node:20-slim"
  | .Rust => "rust:1.75-slim"
  | .Go => "golang:1.21-alpine"
  | .Ruby => "ruby:3.2-slim"

/-- Embeds `Language::install_dependencies_command`: `None` for an empty list,
otherwise the per-language install line over the space-joined list. -/
def Language.install_dependencies_command (lang : Language)
    (dependencies : List String) : Option String :=
  if dependencies.isEmpty then none
  else
    let deps := String.intercalate " " dependencies
    some (match lang with
      | .Python => "pip install --quiet " ++ deps
      | .Node => "npm install --global --quiet " ++ deps
      | .Rust => "cargo install --quiet " ++ deps
      | .Go => "go install " ++ deps ++ "@latest"
      | .Ruby => "gem install --quiet " ++ deps)

/-- Embeds `Language::execute_command`. -/
def Language.execute_command (lang : Language) (code : String) : List String :=
  match lang with
  | .Python => ["python", "-c", code]
  | .Node => ["node", "-e", code]
  | .Rust =>
    ["sh", "-c",
      "echo \x27" ++ code ++
        "\x27 > /tmp/main.rs && rustc /tmp/main.rs -o /tmp/prog && /tmp/prog"]
  | .Go =>
    ["sh", "-c", "echo \x27" ++ code ++ "\x27 > /tmp/main.go && go run /tmp/main.go"]
  | .Ruby => ["ruby", "-e", code]

/-- Embeds `Language::build_command_with_dependencies`. -/
def Language.build_command_with_dependencies (lang : Language) (code : String)
    (dependencies : List String) : List String :=
  let install_cmd := lang.install_dependencies_command dependencies
  let execute_cmd_parts := lang.execute_command code
  match install_cmd with
  | some install =>
    let combined :=
      if execute_cmd_parts.headD "" = "sh" ∧ execute_cmd_parts.length = 3 then
        install ++ " && " ++ (execute_cmd_parts.getD 2 "")
      else
        install ++ " && " ++ String.intercalate " " execute_cmd_parts
    ["sh", "-c", combined]
  | none => execute_cmd_parts

/-- Embeds `format!("\x7b:?\x7d", language)` for the derived `Debug` instance:
the bare variant name. -/
def Language.debugStr : Language → String
  | .Python => "Python"
  | .Node => "Node"
  | .Rust => "Rust"
  | .Go => "Go"
  | .Ruby => "Ruby"

/-- The `Severity` enum of `repl-api/src/security.rs`. -/
inductive Severity where
  | Low
  | Medium
  | High
  | Critical
deriving DecidableEq, BEq

/-- The `DangerousPattern` record of `security.rs`; the `Regex` field is embedded as its
`is_match` function. -/
structure DangerousPattern where
  pattern : String → Bool
  description : String
  severity : Severity

/-- Embeds `MAX_CODE_SIZE` (bytes). -/
def MAX_CODE_SIZE : Nat := 1048576

/-- Embeds `MAX_DEPENDENCIES`. -/
def MAX_DEPENDENCIES : Nat := 20

/-- The fixed `DANGEROUS_PATTERNS` catalogue. Each matcher embeds the
corresponding regex literally where it is a pure alternation of literals, and
as ordered literal pieces where the regex uses `.*` gaps; `\s+` is embedded
as a single space. -/
def DANGEROUS_PATTERNS : List DangerousPattern :=
  [ { pattern := fun code => containsInOrder code [":()\x7b", ":|:&\x7d;:"],
      description := "Fork bomb pattern detected",
      severity := .Critical },
    { pattern := fun code =>
        containsInOrder code ["while true", "fork"] ||
          containsInOrder code ["fork", "while true"],
      description := "Potential fork bomb loop detected",
      severity := .Critical },
    { pattern := fun code =>
        containsStr code "nmap" || containsStr code "masscan" ||
          containsStr code "zmap",
      description := "Network scanning tool detected",
      severity := .Critical },
    { pattern := fun code =>
        containsStr code "xmrig" || containsStr code "ethminer" ||
          containsStr code "cgminer" || containsStr code "bfgminer" ||
          containsStr code "cryptonight",
      description := "Cryptocurrency mining software detected",
      severity := .Critical },
    { pattern := fun code =>
        containsInOrder code ["/bin/bash", "-i"] ||
          containsInOrder code ["/bin/sh", "-i"] ||
          containsInOrder code ["nc", "-e /bin/bash"] ||
          containsInOrder code ["nc", "-e /bin/sh"] ||
          containsStr code "bash -i >& /dev/tcp",
      description := "Reverse shell pattern detected",
      severity := .Critical },
    { pattern := fun code =>
        containsStr code "rm -rf /" ||
          containsStr code "dd if=/dev/zero of=/dev/" ||
          containsStr code "dd if=/dev/random of=/dev/",
      description := "Potentially destructive file system operation",
      severity := .High },
    { pattern := fun code =>
        containsInOrder code ["union", "select"] ||
          containsStr code "drop table" ||
          containsInOrder code ["delete from", "where 1=1"],
      description := "SQL injection pattern detected",
      severity := .Medium },
    { pattern := fun code =>
        containsStr code "while(1)" || containsStr code "while True" ||
          containsStr code "for(;;)",
      description := "Infinite loop pattern detected",
      severity := .Medium } ]

/-- The `DANGEROUS_IMPORTS` map, keyed on the `Debug` rendering of the
language. -/
def DANGEROUS_IMPORTS : String → Option (List String)
  | "Python" =>
    some ["os.system", "subprocess.Popen", "eval(", "exec(", "__import__",
      "compile(", "globals(", "locals("]
  | "Node" => some ["child_process", "eval(", "Function(", "require(\x27vm\x27)"]
  | "Rust" => some ["std::process::Command", "unsafe \x7b"]
  | "Go" => some ["exec.Command", "syscall."]
  | "Ruby" => some ["system(", "exec(", "eval(", "\x60", "Kernel.eval"]
  | _ => none

/-- Embeds `SecurityViolation`. -/
structure SecurityViolation where
  description : String
  severity : Severity
  should_block : Bool

/-- Embeds `CodeValidationResult`. -/
structure CodeValidationResult where
  is_safe : Bool
  violations : List SecurityViolation

/-- Embeds `is_suspicious_dependency`. -/
def is_suspicious_dependency (dep : String) : Bool :=
  let suspicious_keywords :=
    ["miner", "mining", "crypto", "xmr", "monero", "botnet", "exploit",
      "payload", "backdoor", "keylog", "stealer", "ransomware"]
  let dep_lower := String.mk (dep.toList.map Char.toLower)
  suspicious_keywords.any (fun keyword => containsStr dep_lower keyword)

/-- Embeds `validate_code`: the four cascaded checks pushing violations in source
order, then `is_safe` computed from the collected list. -/
def validate_code (code language : String) (dependencies : List String) :
    CodeValidationResult :=
  let violations : List SecurityViolation :=
    (if MAX_CODE_SIZE < code.utf8ByteSize then
      [⟨"Code size " ++ toString code.utf8ByteSize ++
          " exceeds maximum allowed size of " ++ toString MAX_CODE_SIZE ++
          " bytes", .High, true⟩]
    else []) ++
    (if MAX_DEPENDENCIES < dependencies.length then
      [⟨"Number of dependencies " ++ toString dependencies.length ++
          " exceeds maximum allowed of " ++ toString MAX_DEPENDENCIES,
          .Medium, true⟩]
    else []) ++
    DANGEROUS_PATTERNS.filterMap (fun pattern_def =>
      if pattern_def.pattern code then
        some ⟨pattern_def.description, pattern_def.severity,
          pattern_def.severity == Severity.Critical ||
            pattern_def.severity == Severity.High⟩
      else none) ++
    (match DANGEROUS_IMPORTS language with
     | some dangerous_imports =>
       dangerous_imports.filterMap (fun imp =>
         if containsStr code imp then
           some ⟨"Potentially dangerous import/pattern detected: " ++ imp,
             .Medium, false⟩
         else none)
     | none => []) ++
    dependencies.filterMap (fun dep =>
      if is_suspicious_dependency dep then
        some ⟨"Suspicious dependency detected: " ++ dep, .High, true⟩
      else none)
  { is_safe := !violations.any (fun v => v.should_block),
    violations := violations }

/-- Embeds `ExecuteReplRequest`. -/
structure ExecuteReplRequest where
  language : Language
  code : String
  dependencies : List String

/-- Embeds `ExecuteReplResponse`. -/
structure ExecuteReplResponse where
  result : String
  success : Bool
deriving DecidableEq

/-- The repl-api side `CreateContainerRequest` (image + command) that
`ReplSession::execute_with_dependencies` posts to the container controller. -/
structure CreateContainerRequest where
  image : String
  command : List String
deriving DecidableEq

/-- The concatenation of the blocking violation descriptions exactly as the
handlers build it: filter on `should_block`, map `description`, join `"; "`. -/
def blockedMessage (validation : CodeValidationResult) : String :=
  String.intercalate "; "
    ((validation.violations.filter (fun v => v.should_block)).map
      (fun v => v.description))

/-- Observable outcome of the unary `execute_repl` handler: HTTP status,
JSON body, and the container request it posted downstream (if any). -/
structure ReplHttpOutcome where
  status : Nat
  body : ExecuteReplResponse
  containerRequest : Option CreateContainerRequest
deriving DecidableEq

/-- Embeds `execute_repl` (`POST /api/repl/execute`). The downstream interaction of
`ReplSession::execute_with_dependencies` (HTTP round trip to the container
controller) is an external collaborator; its outcome is the `downstream`
argument: `.ok output` for a parsed 2xx response, `.error text` for the
error string the session surfaces. -/
def execute_repl (payload : ExecuteReplRequest)
    (downstream : Except String String) : ReplHttpOutcome :=
  let language_str := payload.language.debugStr
  let validation := validate_code payload.code language_str payload.dependencies
  if validation.is_safe then
    let request : CreateContainerRequest :=
      ⟨payload.language.container_image,
        payload.language.build_command_with_dependencies payload.code
          payload.dependencies⟩
    match downstream with
    | .ok result => ⟨200, ⟨result, true⟩, some request⟩
    | .error e => ⟨500, ⟨e, false⟩, some request⟩
  else
    ⟨403, ⟨"Code execution blocked: " ++ blockedMessage validation, false⟩,
      none⟩

/-- Downstream outcome of the POST the streaming handler sends to
`/api/containers/create/stream`: connection failure, non-2xx response, or a
byte-chunk stream (each chunk either received or a transport error). -/
inductive StreamDownstream where
  | connectErr (e : String)
  | httpErr (errorText : String)
  | okStream (chunks : List (Except String String))

/-- The inner `for line in text.lines()` loop of `execute_repl_stream` on one
received chunk: forwards `data:` payloads, emits a `done` event and breaks
the line loop on `event: done`. -/
def forwardLines : List String → List Ev
  | [] => []
  | line :: rest =>
    if line.startsWith "data:" then
      let data := (line.drop 5).trim
      if data = "" then forwardLines rest
      else .data data :: forwardLines rest
    else if line.startsWith "event:" then
      let event_type := (line.drop 6).trim
      if event_type = "done" then [.done ""]
      else forwardLines rest
    else forwardLines rest

/-- The `while let Some(chunk_result)` loop of `execute_repl_stream`: a
transport error yields one ERROR data event and breaks; an ok chunk is
line-processed (the `break` on `event: done` only leaves the line loop, so
the chunk loop continues afterwards, exactly as in the source). -/
def forwardChunks : List (Except String String) → List Ev
  | [] => []
  | .ok chunk :: rest => forwardLines (rustLines chunk) ++ forwardChunks rest
  | .error e :: _ => [.data ("ERROR: Stream error: " ++ e)]

/-- Observable outcome of `execute_repl_stream`: axum serves an
`Sse` response with HTTP status 200, so the status field is constantly 200;
`events` is the pushed event sequence and `containerRequest` the downstream
container request (if one was issued). -/
structure StreamHttpOutcome where
  status : Nat
  events : List Ev
  containerRequest : Option CreateContainerRequest

/-- Embeds `execute_repl_stream` (`POST /api/repl/execute/stream`). -/
def execute_repl_stream (payload : ExecuteReplRequest)
    (downstream : StreamDownstream) : StreamHttpOutcome :=
  let language_str := payload.language.debugStr
  let validation := validate_code payload.code language_str payload.dependencies
  if validation.is_safe then
    let request : CreateContainerRequest :=
      ⟨payload.language.container_image,
        payload.language.build_command_with_dependencies payload.code
          payload.dependencies⟩
    match downstream with
    | .connectErr e =>
      ⟨200, [.data ("ERROR: Failed to connect to container API: " ++ e)],
        some request⟩
    | .httpErr t =>
      ⟨200, [.data ("ERROR: Container execution failed: " ++ t)], some request⟩
    | .okStream chunks => ⟨200, forwardChunks chunks, some request⟩
  else
    ⟨200, [.data ("ERROR: Code execution blocked: " ++
      blockedMessage validation)], none⟩

end ReplApi

namespace ContainerApi

/-- One item of the image-pull progress stream of the runtime
(`images.pull(..)`): `Ok(info)` with `info.error : Option<String>`, or a
transport `Err`. -/
inductive PullItem where
  | progress (err : Option String)
  | failure (e : String)

/-- Observable outcomes of the container runtime (podman) for one request,
supplied as data: the pull-stream items and the results of the lifecycle
calls. `removeErr` exists because `remove` can fail; both call sites discard
its result (`let _ = container.remove().await`). -/
structure RuntimeBehavior where
  podmanErr : Option String
  pullItems : List PullItem
  createResult : Except String String
  startErr : Option String
  waitErr : Option String
  logsResult : Except String String
  attachResult : Except String (List (Except String String))
  removeErr : Option String

/-- A call issued against the container runtime. -/
inductive RuntimeCall where
  | pull
  | create
  | start (id : String)
  | wait (id : String)
  | logs (id : String)
  | attach (id : String)
  | remove (id : String)
deriving DecidableEq

/-- Recognizer for removal calls. -/
def RuntimeCall.isRemove : RuntimeCall → Bool
  | .remove _ => true
  | _ => false

/-- Draining the pull-progress stream as both handlers do: the first item
carrying an `error` field, or the first transport error, aborts with that
message; a fully drained clean stream yields `none`. -/
def scanPull : List PullItem → Option String
  | [] => none
  | .progress none :: rest => scanPull rest
  | .progress (some e) :: _ => some e
  | .failure e :: _ => some e

/-- Body of the unary `create_container` response. -/
inductive UnaryBody where
  | errorText (s : String)
  | success (id message output : String)
deriving DecidableEq

/-- Observable outcome of the unary handler: HTTP status, body, and the
runtime calls it issued, in order. -/
structure UnaryOutcome where
  status : Nat
  body : UnaryBody
  calls : List RuntimeCall

/-- Embeds `create_container` (`POST /api/containers/create`), unary mode: pull,
create, start, wait, logs, remove. Each failure returns 500 with the
message of the source; only the fully successful path reaches the
`container.remove()` call. (The source constructs the runtime client with
`unwrap()`, so `podmanErr` is not consulted in unary mode.) -/
def create_container (image : String) (rt : RuntimeBehavior) : UnaryOutcome :=
  match scanPull rt.pullItems with
  | some e =>
    ⟨500, .errorText ("Failed to pull image \x27" ++ image ++ "\x27: " ++ e),
      [.pull]⟩
  | none =>
    match rt.createResult with
    | .error e =>
      ⟨500, .errorText ("Failed to create container: " ++ e), [.pull, .create]⟩
    | .ok id =>
      match rt.startErr with
      | some e =>
        ⟨500, .errorText ("Container created but failed to start: " ++ e),
          [.pull, .create, .start id]⟩
      | none =>
        match rt.waitErr with
        | some e =>
          ⟨500, .errorText ("Error waiting for container to finish: " ++ e),
            [.pull, .create, .start id, .wait id]⟩
        | none =>
          match rt.logsResult with
          | .error e =>
            ⟨500, .errorText ("Failed to get container logs: " ++ e),
              [.pull, .create, .start id, .wait id, .logs id]⟩
          | .ok logs =>
            ⟨200, .success id "Container executed successfully" logs,
              [.pull, .create, .start id, .wait id, .logs id, .remove id]⟩

/-- The attach-output loop of `create_container_stream`: each ok nonempty
chunk is forwarded as a data event; a read error yields one ERROR data event
and breaks the loop. -/
def processChunks : List (Except String String) → List Ev
  | [] => []
  | .ok chunk :: rest =>
    if chunk = "" then processChunks rest
    else .data chunk :: processChunks rest
  | .error e :: _ => [.data ("ERROR: Failed to read output: " ++ e)]

/-- Observable outcome of the streaming handler: pushed events and runtime
calls, in order. -/
structure StreamOutcome where
  events : List Ev
  calls : List RuntimeCall

/-- Embeds `create_container_stream` (`POST /api/containers/create/stream`):
connect, pull, create, attach (before start), start, forward output, wait,
remove, `done`. Every failure before the output loop yields a single
`data: ERROR: ...` event and ends the stream there. -/
def create_container_stream (image : String) (rt : RuntimeBehavior) :
    StreamOutcome :=
  match rt.podmanErr with
  | some e => ⟨[.data ("ERROR: Failed to connect to Podman: " ++ e)], []⟩
  | none =>
    match scanPull rt.pullItems with
    | some e =>
      ⟨[.data ("ERROR: Failed to pull image \x27" ++ image ++ "\x27: " ++ e)],
        [.pull]⟩
    | none =>
      match rt.createResult with
      | .error e =>
        ⟨[.data ("ERROR: Failed to create container: " ++ e)],
          [.pull, .create]⟩
      | .ok id =>
        match rt.attachResult with
        | .error e =>
          ⟨[.data ("ERROR: Failed to attach to container: " ++ e)],
            [.pull, .create, .attach id]⟩
        | .ok chunks =>
          match rt.startErr with
          | some e =>
            ⟨[.data ("ERROR: Container failed to start: " ++ e)],
              [.pull, .create, .attach id, .start id]⟩
          | none =>
            ⟨processChunks chunks ++ [.done "Container execution completed"],
              [.pull, .create, .attach id, .start id, .wait id, .remove id]⟩

/-- The streaming pipeline reached the point where the container runs and
the terminal event is guaranteed: connect, pull, create, attach and start
all succeeded. -/
def runReached (rt : RuntimeBehavior) : Bool :=
  rt.podmanErr.isNone && (scanPull rt.pullItems).isNone &&
    rt.createResult.isOk && rt.attachResult.isOk && rt.startErr.isNone

/-- Number of terminal `done` events in an event sequence. -/
def doneCount (evs : List Ev) : Nat :=
  (evs.filter Ev.isDone).length

end ContainerApi

namespace RateLimit

/-- The `TokenBucket` record of `repl-api/src/rate_limit.rs` with `f64` embedded as ℚ.
The `last_refill : Instant` field is embedded by passing the elapsed seconds
since the last refill explicitly to each operation (after which the source
sets `last_refill = now`, i.e. the next elapsed value starts from zero). -/
structure TokenBucket where
  tokens : ℚ
  capacity : ℚ
  refill_rate : ℚ
deriving DecidableEq

/-- Embeds `TokenBucket::new`: a fresh bucket starts full. -/
def TokenBucket.new (capacity refill_rate : ℚ) : TokenBucket :=
  ⟨capacity, capacity, refill_rate⟩

/-- Embeds `TokenBucket::refill` with `elapsed` seconds since `last_refill`:
`tokens = (tokens + elapsed * refill_rate).min(capacity)`. -/
def TokenBucket.refill (b : TokenBucket) (elapsed : ℚ) : TokenBucket :=
  { b with tokens := min (b.tokens + elapsed * b.refill_rate) b.capacity }

/-- Embeds `TokenBucket::try_consume`: refill, then consume when enough tokens are
available; returns the updated bucket and the success flag. -/
def TokenBucket.try_consume (b : TokenBucket) (elapsed tokens : ℚ) :
    TokenBucket × Bool :=
  let b := b.refill elapsed
  if tokens ≤ b.tokens then ({ b with tokens := b.tokens - tokens }, true)
  else (b, false)

/-- Embeds `TokenBucket::time_until_available`: refill, then zero when enough
tokens are available, else `(tokens - self.tokens) / refill_rate` seconds. -/
def TokenBucket.time_until_available (b : TokenBucket) (elapsed tokens : ℚ) :
    TokenBucket × ℚ :=
  let b := b.refill elapsed
  if tokens ≤ b.tokens then (b, 0)
  else (b, (tokens - b.tokens) / b.refill_rate)

/-- Embeds `Duration::from_secs_f64(q)` followed by `Duration::as_secs()`: whole
seconds, truncated towards zero (sub-nanosecond rounding of the conversion
is not modelled; all values in the theorems are exact multiples of 1/2). -/
def durationSecs (q : ℚ) : Nat :=
  ⌊q⌋.toNat

/-- Association-list update mirroring `HashMap::entry(..).or_insert_with`
followed by in-place mutation of the bucket. -/
def updateBucket : List (String × TokenBucket) → String → TokenBucket →
    List (String × TokenBucket)
  | [], ip, b => [(ip, b)]
  | (k, v) :: rest, ip, b =>
    if k = ip then (ip, b) :: rest else (k, v) :: updateBucket rest ip b

/-- The `RateLimiter` record: the IP → bucket map plus the construction parameters. -/
structure RateLimiter where
  buckets : List (String × TokenBucket)
  capacity : ℚ
  refill_rate : ℚ

/-- Embeds `RateLimiter::new(requests_per_minute, burst_size)`: empty map,
capacity = burst size, refill rate = requests per minute / 60. -/
def RateLimiter.new (requests_per_minute burst_size : ℚ) : RateLimiter :=
  ⟨[], burst_size, requests_per_minute / 60⟩

/-- The bucket `check_rate_limit` operates on: the stored one, or a fresh
full bucket for an unseen IP (`entry(ip).or_insert_with(TokenBucket::new)`). -/
def RateLimiter.bucketFor (l : RateLimiter) (ip : String) : TokenBucket :=
  (l.buckets.lookup ip).getD (TokenBucket.new l.capacity l.refill_rate)

/-- Embeds `RateLimiter::check_rate_limit`: consume one token; on failure report
the wait duration from `time_until_available` (which refills again, hence
the second elapsed argument for the nanoseconds between the two
`Instant::now()` readings). Returns the updated limiter and `none` for
allowed / `some wait` for denied. -/
def RateLimiter.check_rate_limit (l : RateLimiter) (ip : String)
    (elapsed₁ elapsed₂ : ℚ) : RateLimiter × Option ℚ :=
  let bucket := l.bucketFor ip
  match bucket.try_consume elapsed₁ 1 with
  | (b₁, true) => ({ l with buckets := updateBucket l.buckets ip b₁ }, none)
  | (b₁, false) =>
    let r := b₁.time_until_available elapsed₂ 1
    ({ l with buckets := updateBucket l.buckets ip r.1 }, some r.2)

/-- Response of `rate_limit_middleware`: pass the request through, or a 429
with the `Retry-After` header value (in seconds) and the body text. -/
inductive MiddlewareResponse where
  | pass
  | tooMany (retryAfterSecs : Nat) (body : String)
deriving DecidableEq

/-- Embeds `rate_limit_middleware` for one request from `ip`. -/
def rate_limit_middleware (l : RateLimiter) (ip : String)
    (elapsed₁ elapsed₂ : ℚ) : RateLimiter × MiddlewareResponse :=
  match l.check_rate_limit ip elapsed₁ elapsed₂ with
  | (l', none) => (l', .pass)
  | (l', some d) =>
    let retry_seconds := durationSecs d
    (l', .tooMany retry_seconds
      ("Rate limit exceeded. Please retry after " ++ toString retry_seconds ++
        " seconds."))

/-- Runs `n` back-to-back requests from one IP with no elapsed time in between
(the S4 burst scenario); returns the final limiter state and the per-request
responses in order. -/
def simulateRequests (l : RateLimiter) (ip : String) :
    Nat → RateLimiter × List MiddlewareResponse
  | 0 => (l, [])
  | n + 1 =>
    let r := rate_limit_middleware l ip 0 0
    let rest := simulateRequests r.1 ip n
    (rest.1, r.2 :: rest.2)

end RateLimit

namespace Bootstrap

/-- Outcome of one registration attempt of `bootstrap_service`: the POST
failed (`send_err`), the response body did not parse (`parse_err`), or a
lease id was obtained. -/
inductive AttemptOutcome where
  | sendErr (e : String)
  | parseErr (e : String)
  | ok (lease_id : Int)

/-- Holds exactly for a successful attempt. -/
def AttemptOutcome.isOk : AttemptOutcome → Bool
  | .ok _ => true
  | _ => false

/-- Action of the registration loop, in order of occurrence. -/
inductive BootAction where
  | request
  | sleep2s
  | panicked
  | registered (lease_id : Int)
deriving DecidableEq

/-- The registration retry loop of `bootstrap_service`, driven by the
sequence of attempt outcomes the network delivers: each iteration increments
the attempt counter and issues the POST; on success the lease is returned;
a parse failure rechecks the attempt bound and loops again immediately;
a send failure rechecks the bound and sleeps two seconds before looping.
Reaching the bound on a failed attempt aborts the process. -/
def register_loop (max_attempts : Nat) :
    Nat → List AttemptOutcome → List BootAction
  | _, [] => []
  | attempts, o :: rest =>
    let attempts := attempts + 1
    match o with
    | .ok l => [.request, .registered l]
    | .parseErr _ =>
      if max_attempts ≤ attempts then [.request, .panicked]
      else .request :: register_loop max_attempts attempts rest
    | .sendErr _ =>
      if max_attempts ≤ attempts then [.request, .panicked]
      else .request :: .sleep2s :: register_loop max_attempts attempts rest

/-- Number of registration POSTs in a loop trace. -/
def countRequests : List BootAction → Nat
  | [] => 0
  | .request :: rest => countRequests rest + 1
  | _ :: rest => countRequests rest

end Bootstrap

namespace ReplApi

/-- Claim C3: for every input triple, the verdict of `validate_code`
satisfies `is_safe = true` if and only if no violation in its list has
`should_block = true`. -/
theorem c3_is_safe_iff_no_blocking_violation (code language : String)
    (dependencies : List String) :
    (validate_code code language dependencies).is_safe = true ↔
      ∀ v ∈ (validate_code code language dependencies).violations,
        v.should_block = false := by
  show (!(validate_code code language dependencies).violations.any
      (fun v => v.should_block)) = true ↔ _
  simp [List.any_eq_true]

/-- Claim C5: with no dependencies `build_command_with_dependencies` is
exactly `execute_command`; with at least one dependency it is
`["sh", "-c", install ++ " && " ++ e]` where `install` is the per-language
install line and `e` renders the execute command (its shell script when the
execute command is already `sh -c`-shaped, else its parts joined by
spaces). -/
theorem c5_build_command_shape (lang : Language) (code : String) :
    lang.build_command_with_dependencies code [] = lang.execute_command code ∧
    ∀ dependencies : List String, dependencies ≠ [] →
      ∃ e, lang.build_command_with_dependencies code dependencies =
          ["sh", "-c",
            ((lang.install_dependencies_command dependencies).getD "") ++
              " && " ++ e] ∧
        (lang.execute_command code = ["sh", "-c", e] ∨
          e = String.intercalate " " (lang.execute_command code)) := by
  refine ⟨rfl, ?_⟩
  intro dependencies h
  match dependencies, h with
  | d :: ds, _ =>
    cases lang with
    | Python => exact ⟨_, rfl, Or.inr rfl⟩
    | Node => exact ⟨_, rfl, Or.inr rfl⟩
    | Rust =>
      exact ⟨"echo \x27" ++ code ++
        "\x27 > /tmp/main.rs && rustc /tmp/main.rs -o /tmp/prog && /tmp/prog",
        rfl, Or.inl rfl⟩
    | Go =>
      exact ⟨"echo \x27" ++ code ++ "\x27 > /tmp/main.go && go run /tmp/main.go",
        rfl, Or.inl rfl⟩
    | Ruby => exact ⟨_, rfl, Or.inr rfl⟩

/-- Witness for C5 at Python, one dependency. -/
theorem c5_build_command_shape_witness :
    (["requests"] ≠ ([] : List String)) ∧
    (∃ e, Language.Python.build_command_with_dependencies "print(1)"
          ["requests"] =
        ["sh", "-c",
          ((Language.Python.install_dependencies_command ["requests"]).getD "")
            ++ " && " ++ e] ∧
      (Language.Python.execute_command "print(1)" = ["sh", "-c", e] ∨
        e = String.intercalate " "
          (Language.Python.execute_command "print(1)"))) :=
  ⟨by decide,
    (c5_build_command_shape .Python "print(1)").2 ["requests"] (by decide)⟩

/-- Counterexample for C6: for two Go dependencies the code emits a single
`@latest` after the joined list, so no dependency other than the last is
suffixed `@latest` — `a@latest` does not occur in the produced command. -/
theorem c6_counterexample_go_install_single_latest :
    Language.Go.install_dependencies_command ["a", "b"] =
      some "go install a b@latest" ∧
    containsStr "go install a b@latest" "a@latest" = false := by
  exact ⟨rfl, by decide⟩

/-- Claim C6 (amended): the five images, execute commands and install
commands are as in the normative table, except that the GO install command for
dependencies `d₁ … dₙ` is `go install d₁ … dₙ@latest` — the list joined by
spaces with one `@latest` appended after the last entry; for a single
dependency this coincides with `go install <dep>@latest`. -/
theorem c6_language_table :
    (Language.Python.container_image = "python:3.11-slim" ∧
      Language.Node.container_image = "node:20-slim" ∧
      Language.Rust.container_image = "rust:1.75-slim" ∧
      Language.Go.container_image = "golang:1.21-alpine" ∧
      Language.Ruby.container_image = "ruby:3.2-slim") ∧
    (∀ code : String,
      Language.Python.execute_command code = ["python", "-c", code] ∧
      Language.Node.execute_command code = ["node", "-e", code] ∧
      Language.Rust.execute_command code =
        ["sh", "-c", "echo \x27" ++ code ++
          "\x27 > /tmp/main.rs && rustc /tmp/main.rs -o /tmp/prog && /tmp/prog"] ∧
      Language.Go.execute_command code =
        ["sh", "-c",
          "echo \x27" ++ code ++ "\x27 > /tmp/main.go && go run /tmp/main.go"] ∧
      Language.Ruby.execute_command code = ["ruby", "-e", code]) ∧
    (∀ (d : String) (ds : List String),
      Language.Python.install_dependencies_command (d :: ds) =
        some ("pip install --quiet " ++ String.intercalate " " (d :: ds)) ∧
      Language.Node.install_dependencies_command (d :: ds) =
        some ("npm install --global --quiet " ++
          String.intercalate " " (d :: ds)) ∧
      Language.Rust.install_dependencies_command (d :: ds) =
        some ("cargo install --quiet " ++ String.intercalate " " (d :: ds)) ∧
      Language.Go.install_dependencies_command (d :: ds) =
        some ("go install " ++ String.intercalate " " (d :: ds) ++ "@latest") ∧
      Language.Ruby.install_dependencies_command (d :: ds) =
        some ("gem install --quiet " ++ String.intercalate " " (d :: ds))) ∧
    (∀ d : String, Language.Go.install_dependencies_command [d] =
      some ("go install " ++ d ++ "@latest")) :=
  ⟨⟨rfl, rfl, rfl, rfl, rfl⟩,
    fun _ => ⟨rfl, rfl, rfl, rfl, rfl⟩,
    fun _ _ => ⟨rfl, rfl, rfl, rfl, rfl⟩,
    fun _ => rfl⟩

/-- Counterexample for C4: a payload the validator judges unsafe (suspicious
dependency `miner`) sent to the streaming endpoint is answered with the SSE
response (HTTP 200) carrying a single `data: ERROR: ...` event — not with
HTTP 403. -/
theorem c4_counterexample_stream_blocked_is_http_200 :
    (validate_code "print(1)" "Python" ["miner"]).is_safe = false ∧
    (execute_repl_stream ⟨.Python, "print(1)", ["miner"]⟩
      (.okStream [])).status = 200 ∧
    (execute_repl_stream ⟨.Python, "print(1)", ["miner"]⟩ (.okStream [])).events
      = [.data
          "ERROR: Code execution blocked: Suspicious dependency detected: miner"]
      := by
  refine ⟨by decide, ?_, ?_⟩ <;> decide

/-- Claim C4 (amended): for a payload the validator judges unsafe, the unary
endpoint returns HTTP 403 with `success = false` and the concatenated
blocking descriptions, issuing no container request; the streaming endpoint
returns its SSE response (HTTP 200) whose only event is
`data: ERROR: Code execution blocked: <concatenated blocking descriptions>`,
likewise issuing no container request. -/
theorem c4_blocked_request_handling (payload : ExecuteReplRequest)
    (downstream : Except String String) (sdown : StreamDownstream)
    (h : (validate_code payload.code payload.language.debugStr
      payload.dependencies).is_safe = false) :
    execute_repl payload downstream =
      ⟨403,
        ⟨"Code execution blocked: " ++ blockedMessage
          (validate_code payload.code payload.language.debugStr
            payload.dependencies), false⟩, none⟩ ∧
    (execute_repl_stream payload sdown).status = 200 ∧
    (execute_repl_stream payload sdown).events =
      [.data ("ERROR: Code execution blocked: " ++ blockedMessage
        (validate_code payload.code payload.language.debugStr
          payload.dependencies))] ∧
    (execute_repl_stream payload sdown).containerRequest = none := by
  refine ⟨?_, ?_, ?_, ?_⟩ <;>
    simp [execute_repl, execute_repl_stream, h]

/-- Witness for C4 at the unsafe payload with dependency `miner`. -/
theorem c4_blocked_request_handling_witness :
    ((validate_code "print(1)" Language.Python.debugStr ["miner"]).is_safe
      = false) ∧
    (execute_repl ⟨.Python, "print(1)", ["miner"]⟩ (.ok "out") =
      ⟨403,
        ⟨"Code execution blocked: " ++ blockedMessage
          (validate_code "print(1)" Language.Python.debugStr ["miner"]),
          false⟩, none⟩ ∧
    (execute_repl_stream ⟨.Python, "print(1)", ["miner"]⟩
        (.okStream [])).status = 200 ∧
    (execute_repl_stream ⟨.Python, "print(1)", ["miner"]⟩
        (.okStream [])).events =
      [.data ("ERROR: Code execution blocked: " ++ blockedMessage
        (validate_code "print(1)" Language.Python.debugStr ["miner"]))] ∧
    (execute_repl_stream ⟨.Python, "print(1)", ["miner"]⟩
        (.okStream [])).containerRequest = none) :=
  ⟨by decide,
    c4_blocked_request_handling ⟨.Python, "print(1)", ["miner"]⟩ (.ok "out")
      (.okStream []) (by decide)⟩

end ReplApi


namespace ContainerApi

/-- Claim C1: the controller does NOT attempt removal on every exit path
that created a container. Unary mode: when `create` succeeds and `start`
fails, the handler returns 500 after calls pull, create, start — no remove.
Streaming mode: when `create` succeeds and `attach` fails, the stream ends
after calls pull, create, attach — no remove. This exhibits the violation
of the removal invariant stated by the specification. -/
theorem c1_created_container_not_removed_on_failure :
    ((create_container "img"
        ⟨none, [], .ok "c1", some "boom", none, .ok "", .ok [], none⟩).status
      = 500 ∧
    (create_container "img"
        ⟨none, [], .ok "c1", some "boom", none, .ok "", .ok [], none⟩).calls
      = [.pull, .create, .start "c1"] ∧
    ((create_container "img"
        ⟨none, [], .ok "c1", some "boom", none, .ok "", .ok [], none⟩).calls.all
      (fun c => !c.isRemove)) = true) ∧
    ((create_container_stream "img"
        ⟨none, [], .ok "c2", none, none, .ok "", .error "denied", none⟩).calls
      = [.pull, .create, .attach "c2"] ∧
    ((create_container_stream "img"
        ⟨none, [], .ok "c2", none, none, .ok "", .error "denied",
          none⟩).calls.all (fun c => !c.isRemove)) = true) := by
  refine ⟨⟨?_, ?_, ?_⟩, ?_, ?_⟩ <;> decide

/-- Counterexample for C2: on an image-pull failure the stream consists of
exactly one `data: ERROR: ...` event and closes — no terminal `done` event
is emitted on this termination path. -/
theorem c2_counterexample_pull_failure_emits_no_done :
    (create_container_stream "no-such:latest"
        ⟨none, [.progress (some "manifest unknown")], .ok "c1", none, none,
          .ok "", .ok [], none⟩).events =
      [.data
        "ERROR: Failed to pull image \x27no-such:latest\x27: manifest unknown"]
      ∧
    doneCount (create_container_stream "no-such:latest"
        ⟨none, [.progress (some "manifest unknown")], .ok "c1", none, none,
          .ok "", .ok [], none⟩).events = 0 := by
  refine ⟨?_, ?_⟩ <;> decide

/-- The attach-output loop only ever produces data events. -/
theorem processChunks_all_data (chunks : List (Except String String)) :
    ∃ ds : List String, processChunks chunks = ds.map Ev.data := by
  induction chunks with
  | nil => exact ⟨[], rfl⟩
  | cons c rest ih =>
    cases c with
    | ok s =>
      by_cases hs : s = ""
      · simpa [processChunks, hs] using ih
      · obtain ⟨ds, hd⟩ := ih
        exact ⟨s :: ds, by simp [processChunks, hs, hd]⟩
    | error e => exact ⟨["ERROR: Failed to read output: " ++ e], rfl⟩

/-- Data events contribute nothing to the terminal-event count. -/
theorem doneCount_map_data (ds : List String) :
    doneCount (ds.map Ev.data) = 0 := by
  induction ds with
  | nil => rfl
  | cons d rest ih => simp [doneCount, Ev.isDone] at ih ⊢

/-- Splitting the terminal-event count over an append. -/
theorem doneCount_append (a b : List Ev) :
    doneCount (a ++ b) = doneCount a + doneCount b := by
  simp [doneCount, List.filter_append]

/-- Helper discharging the C2 contract on a failure branch: the stream is a
single data event and the run was not reached. -/
theorem c2_error_branch (image : String) (rt : RuntimeBehavior) (m : String)
    (hevs : (create_container_stream image rt).events = [Ev.data m])
    (hrun : runReached rt = false) :
    (∃ ds : List String,
      (create_container_stream image rt).events = ds.map Ev.data ∨
      (create_container_stream image rt).events =
        ds.map Ev.data ++ [Ev.done "Container execution completed"]) ∧
    doneCount (create_container_stream image rt).events ≤ 1 ∧
    ((∃ s, Ev.done s ∈ (create_container_stream image rt).events) ↔
      runReached rt = true) ∧
    (runReached rt = false →
      ∃ m, (create_container_stream image rt).events = [Ev.data m]) := by
  refine ⟨⟨[m], Or.inl (by simp [hevs])⟩,
    by simp [hevs, doneCount, Ev.isDone], ?_, fun _ => ⟨m, hevs⟩⟩
  constructor
  · rintro ⟨s, hs⟩
    rw [hevs] at hs
    simp at hs
  · intro h
    rw [h] at hrun
    cases hrun

end ContainerApi

/-- Claim C2 (amended): every stream produced by the streaming create
operation is a sequence of data events optionally closed by one terminal
`done` event; the `done` count never exceeds one; a `done` event occurs
exactly on the runs where connect, pull, create, attach and start all
succeeded (including runs whose output loop hit a read error); every other
termination path — connect, pull, create, attach or start failure — emits a
single data event (the `ERROR: ...` line) and closes without `done`. -/
theorem c2_stream_terminal_event_contract (image : String)
    (rt : ContainerApi.RuntimeBehavior) :
    (∃ ds : List String,
      (ContainerApi.create_container_stream image rt).events = ds.map Ev.data ∨
      (ContainerApi.create_container_stream image rt).events =
        ds.map Ev.data ++ [Ev.done "Container execution completed"]) ∧
    ContainerApi.doneCount
      (ContainerApi.create_container_stream image rt).events ≤ 1 ∧
    ((∃ s, Ev.done s ∈ (ContainerApi.create_container_stream image rt).events)
      ↔ ContainerApi.runReached rt = true) ∧
    (ContainerApi.runReached rt = false →
      ∃ m, (ContainerApi.create_container_stream image rt).events
        = [Ev.data m]) := by
  obtain ⟨pe, pi, cr, se, we, lr, ar, re⟩ := rt
  cases pe with
  | some e =>
    exact ContainerApi.c2_error_branch image _
      ("ERROR: Failed to connect to Podman: " ++ e)
      (by simp [ContainerApi.create_container_stream])
      (by simp [ContainerApi.runReached, Except.isOk, Except.toBool])
  | none =>
    cases hscan : ContainerApi.scanPull pi with
    | some e =>
      exact ContainerApi.c2_error_branch image _
        ("ERROR: Failed to pull image \x27" ++ image ++ "\x27: " ++ e)
        (by simp [ContainerApi.create_container_stream, hscan])
        (by simp [ContainerApi.runReached, hscan, Except.isOk, Except.toBool])
    | none =>
      cases cr with
      | error e =>
        exact ContainerApi.c2_error_branch image _
          ("ERROR: Failed to create container: " ++ e)
          (by simp [ContainerApi.create_container_stream, hscan])
          (by simp [ContainerApi.runReached, hscan, Except.isOk, Except.toBool])
      | ok id =>
        cases ar with
        | error e =>
          exact ContainerApi.c2_error_branch image _
            ("ERROR: Failed to attach to container: " ++ e)
            (by simp [ContainerApi.create_container_stream, hscan])
            (by simp [ContainerApi.runReached, hscan, Except.isOk, Except.toBool])
        | ok chunks =>
          cases se with
          | some e =>
            exact ContainerApi.c2_error_branch image _
              ("ERROR: Container failed to start: " ++ e)
              (by simp [ContainerApi.create_container_stream, hscan])
              (by simp [ContainerApi.runReached, hscan, Except.isOk, Except.toBool])
          | none =>
            obtain ⟨ds, hds⟩ := ContainerApi.processChunks_all_data chunks
            have hevs : (ContainerApi.create_container_stream image
                ⟨none, pi, .ok id, none, we, lr, .ok chunks, re⟩).events =
                ds.map Ev.data ++ [Ev.done "Container execution completed"] := by
              simp [ContainerApi.create_container_stream, hscan, hds]
            have hrun : ContainerApi.runReached
                ⟨none, pi, .ok id, none, we, lr, .ok chunks, re⟩ = true := by
              simp [ContainerApi.runReached, hscan, Except.isOk, Except.toBool]
            refine ⟨⟨ds, Or.inr hevs⟩, ?_, ?_, ?_⟩
            · rw [hevs, ContainerApi.doneCount_append,
                ContainerApi.doneCount_map_data]
              simp [ContainerApi.doneCount, Ev.isDone]
            · rw [hrun]
              simp only [iff_true]
              exact ⟨"Container execution completed",
                by rw [hevs]; exact List.mem_append_right _ (by simp)⟩
            · intro h
              rw [hrun] at h
              cases h

namespace RateLimit

/-- Claim C8: after `refill` over an elapsed interval the token count is
`min(capacity, tokens₀ + Δ·refill_rate)`; the `0 ≤ tokens ≤ capacity`
invariant is preserved by `refill` and `try_consume`; and `try_consume x`
succeeds, subtracting `x`, exactly when the post-refill count is at least
`x`. -/
theorem c8_token_bucket_refill_and_consume (b : TokenBucket) (Δ x : ℚ)
    (htl : 0 ≤ b.tokens) (htu : b.tokens ≤ b.capacity) (hΔ : 0 ≤ Δ)
    (hr : 0 ≤ b.refill_rate) (hx : 0 ≤ x) :
    (b.refill Δ).tokens = min b.capacity (b.tokens + Δ * b.refill_rate) ∧
    (0 ≤ (b.refill Δ).tokens ∧ (b.refill Δ).tokens ≤ b.capacity) ∧
    ((b.try_consume Δ x).2 = true ↔ x ≤ (b.refill Δ).tokens) ∧
    ((b.try_consume Δ x).2 = true →
      (b.try_consume Δ x).1.tokens = (b.refill Δ).tokens - x) ∧
    (0 ≤ (b.try_consume Δ x).1.tokens ∧
      (b.try_consume Δ x).1.tokens ≤ b.capacity) := by
  have hcap : (0:ℚ) ≤ b.capacity := le_trans htl htu
  have hadd : 0 ≤ b.tokens + Δ * b.refill_rate :=
    add_nonneg htl (mul_nonneg hΔ hr)
  have h1 : (b.refill Δ).tokens =
      min (b.tokens + Δ * b.refill_rate) b.capacity := rfl
  have h2 : 0 ≤ (b.refill Δ).tokens := by
    rw [h1]
    exact le_min hadd hcap
  have h3 : (b.refill Δ).tokens ≤ b.capacity := by
    rw [h1]
    exact min_le_right _ _
  by_cases hc : x ≤ (b.refill Δ).tokens
  · refine ⟨by rw [h1, min_comm], ⟨h2, h3⟩,
      by simp [TokenBucket.try_consume, hc], ?_, ?_⟩
    · intro _
      simp [TokenBucket.try_consume, hc]
    · constructor
      · have : (b.try_consume Δ x).1.tokens = (b.refill Δ).tokens - x := by
          simp [TokenBucket.try_consume, hc]
        rw [this]
        exact sub_nonneg.2 hc
      · have : (b.try_consume Δ x).1.tokens = (b.refill Δ).tokens - x := by
          simp [TokenBucket.try_consume, hc]
        rw [this]
        exact le_trans (sub_le_self _ hx) h3
  · refine ⟨by rw [h1, min_comm], ⟨h2, h3⟩,
      by simp [TokenBucket.try_consume, hc], ?_, ?_⟩
    · intro habs
      rw [TokenBucket.try_consume] at habs
      simp [hc] at habs
    · have : (b.try_consume Δ x).1 = b.refill Δ := by
        simp [TokenBucket.try_consume, hc]
      rw [this]
      exact ⟨h2, h3⟩

/-- Witness for C8 on the bucket `⟨0, 2, 1⟩` with elapsed 2 s, consuming one
token. -/
theorem c8_token_bucket_refill_and_consume_witness :
    ((0:ℚ) ≤ 0 ∧ (0:ℚ) ≤ 2 ∧ (0:ℚ) ≤ 2 ∧ (0:ℚ) ≤ 1 ∧ (0:ℚ) ≤ 1) ∧
    ((TokenBucket.refill ⟨0, 2, 1⟩ 2).tokens = min 2 (0 + 2 * 1) ∧
     (0 ≤ (TokenBucket.refill ⟨0, 2, 1⟩ 2).tokens ∧
       (TokenBucket.refill ⟨0, 2, 1⟩ 2).tokens ≤ 2) ∧
     ((TokenBucket.try_consume ⟨0, 2, 1⟩ 2 1).2 = true ↔
       1 ≤ (TokenBucket.refill ⟨0, 2, 1⟩ 2).tokens) ∧
     ((TokenBucket.try_consume ⟨0, 2, 1⟩ 2 1).2 = true →
       (TokenBucket.try_consume ⟨0, 2, 1⟩ 2 1).1.tokens =
         (TokenBucket.refill ⟨0, 2, 1⟩ 2).tokens - 1) ∧
     (0 ≤ (TokenBucket.try_consume ⟨0, 2, 1⟩ 2 1).1.tokens ∧
       (TokenBucket.try_consume ⟨0, 2, 1⟩ 2 1).1.tokens ≤ 2)) :=
  ⟨⟨by simp, by simp, by simp, by simp, by simp⟩,
    c8_token_bucket_refill_and_consume ⟨0, 2, 1⟩ 2 1 (by simp) (by simp)
      (by simp) (by simp) (by simp)⟩

/-- Updating the bucket of an IP makes it the one found by a subsequent lookup. -/
theorem lookup_updateBucket (ip : String) (b : TokenBucket)
    (m : List (String × TokenBucket)) :
    (updateBucket m ip b).lookup ip = some b := by
  induction m with
  | nil => simp [updateBucket, List.lookup]
  | cons kv rest ih =>
    obtain ⟨k, v⟩ := kv
    by_cases hk : k = ip
    · simp [updateBucket, hk, List.lookup]
    · have hbeq : (ip == k) = false :=
        beq_eq_false_iff_ne.2 (fun h => hk h.symm)
      simp [updateBucket, hk, List.lookup, ih, hbeq]

/-- Claim C10: for an IP with no bucket in the map, `check_rate_limit`
operates on a freshly created bucket whose token count equals the configured
capacity, so with capacity at least one the first request is allowed, and
the map afterwards holds a bucket for that IP. -/
theorem c10_unseen_ip_gets_full_bucket (l : RateLimiter) (ip : String)
    (Δ₁ Δ₂ : ℚ) (hnone : l.buckets.lookup ip = none)
    (hcap : 1 ≤ l.capacity) (hΔ : 0 ≤ Δ₁) (hr : 0 ≤ l.refill_rate) :
    l.bucketFor ip = TokenBucket.new l.capacity l.refill_rate ∧
    (l.bucketFor ip).tokens = l.capacity ∧
    (l.check_rate_limit ip Δ₁ Δ₂).2 = none ∧
    ((l.check_rate_limit ip Δ₁ Δ₂).1.buckets.lookup ip).isSome = true := by
  have hbf : l.bucketFor ip = TokenBucket.new l.capacity l.refill_rate := by
    simp [RateLimiter.bucketFor, hnone]
  have htok : min (l.capacity + Δ₁ * l.refill_rate) l.capacity =
      l.capacity := min_eq_right (le_add_of_nonneg_right (mul_nonneg hΔ hr))
  have hcons : (l.bucketFor ip).try_consume Δ₁ 1 =
      (⟨l.capacity - 1, l.capacity, l.refill_rate⟩, true) := by
    rw [hbf]
    simp [TokenBucket.try_consume, TokenBucket.refill, TokenBucket.new, htok,
      hcap]
  have hcrl : l.check_rate_limit ip Δ₁ Δ₂ =
      ((⟨updateBucket l.buckets ip ⟨l.capacity - 1, l.capacity, l.refill_rate⟩,
          l.capacity, l.refill_rate⟩ : RateLimiter), none) := by
    unfold RateLimiter.check_rate_limit
    simp only [hcons]
  refine ⟨hbf, by rw [hbf]; rfl, by rw [hcrl], ?_⟩
  rw [hcrl]
  simp [lookup_updateBucket]

/-- Witness for C10 on an empty limiter with capacity one. -/
theorem c10_unseen_ip_gets_full_bucket_witness :
    ((([] : List (String × TokenBucket)).lookup "9.9.9.9" = none) ∧
      (1:ℚ) ≤ 1 ∧ (0:ℚ) ≤ 0 ∧ (0:ℚ) ≤ 1) ∧
    ((RateLimiter.bucketFor ⟨[], 1, 1⟩ "9.9.9.9" = TokenBucket.new 1 1) ∧
     (RateLimiter.bucketFor ⟨[], 1, 1⟩ "9.9.9.9").tokens = 1 ∧
     (RateLimiter.check_rate_limit ⟨[], 1, 1⟩ "9.9.9.9" 0 0).2 = none ∧
     ((RateLimiter.check_rate_limit ⟨[], 1, 1⟩
        "9.9.9.9" 0 0).1.buckets.lookup "9.9.9.9").isSome = true) :=
  ⟨⟨rfl, by simp, by simp, by simp⟩,
    c10_unseen_ip_gets_full_bucket ⟨[], 1, 1⟩ "9.9.9.9" 0 0 rfl (by simp)
      (by simp) (by simp)⟩

end RateLimit

namespace RateLimit

/-- A middleware step on an IP whose stored bucket holds `t ≥ 1` tokens (no
elapsed time) passes and decrements the bucket. -/
theorem mw_pass_single (ip : String) (t t' c r : ℚ) (h1 : 1 ≤ t)
    (h2 : t ≤ c) (ht' : t - 1 = t') :
    rate_limit_middleware ⟨[(ip, ⟨t, c, r⟩)], c, r⟩ ip 0 0 =
      (⟨[(ip, ⟨t', c, r⟩)], c, r⟩, .pass) := by
  have hbf : RateLimiter.bucketFor ⟨[(ip, ⟨t, c, r⟩)], c, r⟩ ip = ⟨t, c, r⟩ := by
    simp [RateLimiter.bucketFor, List.lookup]
  have hreftok : min t c = t := min_eq_left h2
  have hcons : TokenBucket.try_consume ⟨t, c, r⟩ 0 1 = (⟨t', c, r⟩, true) := by
    simp [TokenBucket.try_consume, TokenBucket.refill, hreftok, h1, h2, ht']
  have hupd : updateBucket [(ip, ⟨t, c, r⟩)] ip ⟨t', c, r⟩ =
      [(ip, ⟨t', c, r⟩)] := by
    simp [updateBucket]
  have hcrl : RateLimiter.check_rate_limit ⟨[(ip, ⟨t, c, r⟩)], c, r⟩ ip 0 0 =
      ((⟨[(ip, ⟨t', c, r⟩)], c, r⟩ : RateLimiter), none) := by
    unfold RateLimiter.check_rate_limit
    simp only [hbf, hcons, hupd]
  unfold rate_limit_middleware
  simp only [hcrl]

/-- The first middleware step for an unseen IP creates a full bucket, passes
and decrements it. -/
theorem mw_fresh_pass (ip : String) (c r t' : ℚ) (h1 : 1 ≤ c)
    (ht' : c - 1 = t') :
    rate_limit_middleware ⟨[], c, r⟩ ip 0 0 =
      (⟨[(ip, ⟨t', c, r⟩)], c, r⟩, .pass) := by
  have hbf : RateLimiter.bucketFor ⟨[], c, r⟩ ip = ⟨c, c, r⟩ := rfl
  have hreftok : min c c = c := min_self c
  have hcons : TokenBucket.try_consume ⟨c, c, r⟩ 0 1 = (⟨t', c, r⟩, true) := by
    simp [TokenBucket.try_consume, TokenBucket.refill, hreftok, h1, ht']
  have hcrl : RateLimiter.check_rate_limit ⟨[], c, r⟩ ip 0 0 =
      ((⟨[(ip, ⟨t', c, r⟩)], c, r⟩ : RateLimiter), none) := by
    unfold RateLimiter.check_rate_limit
    simp only [hbf, hcons]
    rfl
  unfold rate_limit_middleware
  simp only [hcrl]

/-- A middleware step on an empty bucket with refill rate one (no elapsed
time) is denied with `Retry-After: 1`. -/
theorem mw_deny_zero (ip : String) (c : ℚ) (hc : 0 ≤ c) :
    rate_limit_middleware ⟨[(ip, ⟨0, c, 1⟩)], c, 1⟩ ip 0 0 =
      (⟨[(ip, ⟨0, c, 1⟩)], c, 1⟩,
        .tooMany 1 "Rate limit exceeded. Please retry after 1 seconds.") := by
  have hbf : RateLimiter.bucketFor ⟨[(ip, ⟨0, c, 1⟩)], c, 1⟩ ip =
      ⟨0, c, 1⟩ := by
    simp [RateLimiter.bucketFor, List.lookup]
  have hreftok : min (0:ℚ) c = 0 := min_eq_left hc
  have h10 : ¬ (1:ℚ) ≤ 0 := by norm_num
  have hcons : TokenBucket.try_consume ⟨0, c, 1⟩ 0 1 = (⟨0, c, 1⟩, false) := by
    simp [TokenBucket.try_consume, TokenBucket.refill, hreftok, hc, h10]
  have htua : TokenBucket.time_until_available ⟨0, c, 1⟩ 0 1 =
      (⟨0, c, 1⟩, 1) := by
    simp [TokenBucket.time_until_available, TokenBucket.refill, hreftok, hc, h10]
  have hupd : updateBucket [(ip, ⟨0, c, 1⟩)] ip ⟨0, c, 1⟩ =
      [(ip, ⟨0, c, 1⟩)] := by
    simp [updateBucket]
  have hcrl : RateLimiter.check_rate_limit ⟨[(ip, ⟨0, c, 1⟩)], c, 1⟩ ip 0 0 =
      ((⟨[(ip, ⟨0, c, 1⟩)], c, 1⟩ : RateLimiter), some 1) := by
    unfold RateLimiter.check_rate_limit
    simp only [hbf, hcons, htua, hupd]
  unfold rate_limit_middleware
  simp only [hcrl]
  have hds : durationSecs 1 = 1 := by
    unfold durationSecs
    rw [Int.floor_one]
    rfl
  rw [hds]
  rfl

/-- Counterexample for C7: a denied request finding half a token computes
its Retry-After header by truncation — `(1 − 1/2)/1` seconds becomes header
value 0 — while the ceiling of the same quantity is 1. -/
theorem c7_counterexample_retry_after_not_ceiling :
    (rate_limit_middleware ⟨[("1.1.1.1", ⟨1/2, 10, 1⟩)], 10, 1⟩
        "1.1.1.1" 0 0).2 =
      .tooMany 0 "Rate limit exceeded. Please retry after 0 seconds." ∧
    ⌈((1:ℚ) - 1/2) / 1⌉ = 1 := by
  constructor
  · have hbf : RateLimiter.bucketFor ⟨[("1.1.1.1", ⟨1/2, 10, 1⟩)], 10, 1⟩
        "1.1.1.1" = ⟨1/2, 10, 1⟩ := by
      simp [RateLimiter.bucketFor, List.lookup]
    have hle : ((1:ℚ)/2) ≤ 10 := by norm_num
    have hreftok : min ((1:ℚ)/2) 10 = 1/2 := min_eq_left hle
    have h10 : ¬ (1:ℚ) ≤ 1/2 := by norm_num
    have hcons : TokenBucket.try_consume ⟨1/2, 10, 1⟩ 0 1 =
        (⟨1/2, 10, 1⟩, false) := by
      unfold TokenBucket.try_consume TokenBucket.refill
      norm_num [min_def]
    have htua : TokenBucket.time_until_available ⟨1/2, 10, 1⟩ 0 1 =
        (⟨1/2, 10, 1⟩, 1/2) := by
      unfold TokenBucket.time_until_available TokenBucket.refill
      norm_num [min_def]
    have hupd : updateBucket [("1.1.1.1", ⟨1/2, 10, 1⟩)] "1.1.1.1"
        ⟨1/2, 10, 1⟩ = [("1.1.1.1", ⟨1/2, 10, 1⟩)] := by
      simp [updateBucket]
    have hcrl : RateLimiter.check_rate_limit
        ⟨[("1.1.1.1", ⟨1/2, 10, 1⟩)], 10, 1⟩ "1.1.1.1" 0 0 =
        ((⟨[("1.1.1.1", ⟨1/2, 10, 1⟩)], 10, 1⟩ : RateLimiter), some (1/2)) := by
      unfold RateLimiter.check_rate_limit
      simp only [hbf, hcons, htua, hupd]
    unfold rate_limit_middleware
    simp only [hcrl]
    have hfloor : (⌊(1:ℚ)/2⌋ : Int) = 0 := by norm_num
    have hds : durationSecs (1/2) = 0 := by
      unfold durationSecs
      rw [hfloor]
      rfl
    rw [hds]
    rfl
  · rw [Int.ceil_eq_iff]
    norm_num

/-- Claim C7 (amended): the Retry-After value of a denied request is the
TRUNCATION (floor) of `(1 − tokens)/refill_rate` seconds, where `tokens` is
the bucket content after the second refill performed by
`time_until_available` — not the ceiling. In the S4 burst scenario
(requests_per_minute 60, burst 10, eleven back-to-back requests from one IP
with no elapsed time) the first ten requests pass and the eleventh is denied
with `Retry-After: 1`, where floor and ceiling happen to agree. -/
theorem c7_retry_after_truncated_and_burst_scenario :
    (∀ (l : RateLimiter) (ip : String) (Δ₁ Δ₂ : ℚ) (b₁ : TokenBucket),
      (l.bucketFor ip).try_consume Δ₁ 1 = (b₁, false) →
      ¬ 1 ≤ (b₁.refill Δ₂).tokens →
      (rate_limit_middleware l ip Δ₁ Δ₂).2 =
        .tooMany (⌊(1 - (b₁.refill Δ₂).tokens) / b₁.refill_rate⌋.toNat)
          ("Rate limit exceeded. Please retry after " ++
            toString (⌊(1 - (b₁.refill Δ₂).tokens) / b₁.refill_rate⌋.toNat) ++
            " seconds.")) ∧
    (simulateRequests (RateLimiter.new 60 10) "1.1.1.1" 11).2 =
      [.pass, .pass, .pass, .pass, .pass, .pass, .pass, .pass, .pass, .pass,
        .tooMany 1 "Rate limit exceeded. Please retry after 1 seconds."] := by
  constructor
  · intro l ip Δ₁ Δ₂ b₁ h h2
    have htua : b₁.time_until_available Δ₂ 1 =
        (b₁.refill Δ₂, (1 - (b₁.refill Δ₂).tokens) / b₁.refill_rate) := by
      unfold TokenBucket.time_until_available
      simp only [h2, if_false]
      rfl
    have hcrl : l.check_rate_limit ip Δ₁ Δ₂ =
        ((⟨updateBucket l.buckets ip (b₁.refill Δ₂), l.capacity,
            l.refill_rate⟩ : RateLimiter),
          some ((1 - (b₁.refill Δ₂).tokens) / b₁.refill_rate)) := by
      unfold RateLimiter.check_rate_limit
      simp only [h, htua]
    unfold rate_limit_middleware
    simp only [hcrl]
    rfl
  · have hnew : RateLimiter.new 60 10 = (⟨[], 10, 1⟩ : RateLimiter) := by
      unfold RateLimiter.new
      norm_num
    have s1 := mw_fresh_pass "1.1.1.1" 10 1 9 (by norm_num) (by norm_num)
    have s2 := mw_pass_single "1.1.1.1" 9 8 10 1 (by norm_num) (by norm_num)
      (by norm_num)
    have s3 := mw_pass_single "1.1.1.1" 8 7 10 1 (by norm_num) (by norm_num)
      (by norm_num)
    have s4 := mw_pass_single "1.1.1.1" 7 6 10 1 (by norm_num) (by norm_num)
      (by norm_num)
    have s5 := mw_pass_single "1.1.1.1" 6 5 10 1 (by norm_num) (by norm_num)
      (by norm_num)
    have s6 := mw_pass_single "1.1.1.1" 5 4 10 1 (by norm_num) (by norm_num)
      (by norm_num)
    have s7 := mw_pass_single "1.1.1.1" 4 3 10 1 (by norm_num) (by norm_num)
      (by norm_num)
    have s8 := mw_pass_single "1.1.1.1" 3 2 10 1 (by norm_num) (by norm_num)
      (by norm_num)
    have s9 := mw_pass_single "1.1.1.1" 2 1 10 1 (by norm_num) (by norm_num)
      (by norm_num)
    have s10 := mw_pass_single "1.1.1.1" 1 0 10 1 (by norm_num) (by norm_num)
      (by norm_num)
    have s11 := mw_deny_zero "1.1.1.1" 10 (by norm_num)
    rw [hnew]
    simp only [simulateRequests, s1, s2, s3, s4, s5, s6, s7, s8, s9, s10, s11]

/-- Witness for C7 on a denied request against an empty bucket. -/
theorem c7_retry_after_truncated_witness :
    ((RateLimiter.bucketFor ⟨[("1.1.1.1", ⟨0, 10, 1⟩)], 10, 1⟩
        "1.1.1.1").try_consume 0 1 = (⟨0, 10, 1⟩, false) ∧
      ¬ 1 ≤ (TokenBucket.refill ⟨0, 10, 1⟩ 0).tokens) ∧
    (rate_limit_middleware ⟨[("1.1.1.1", ⟨0, 10, 1⟩)], 10, 1⟩
        "1.1.1.1" 0 0).2 =
      .tooMany (⌊(1 - (TokenBucket.refill ⟨0, 10, 1⟩ 0).tokens) / 1⌋.toNat)
        ("Rate limit exceeded. Please retry after " ++
          toString
            (⌊(1 - (TokenBucket.refill ⟨0, 10, 1⟩ 0).tokens) / 1⌋.toNat) ++
          " seconds.") :=
  ⟨⟨by simp [RateLimiter.bucketFor, List.lookup, TokenBucket.try_consume,
      TokenBucket.refill, min_def],
    by simp [TokenBucket.refill, min_def]⟩,
    c7_retry_after_truncated_and_burst_scenario.1
      ⟨[("1.1.1.1", ⟨0, 10, 1⟩)], 10, 1⟩ "1.1.1.1" 0 0 ⟨0, 10, 1⟩
      (by simp [RateLimiter.bucketFor, List.lookup, TokenBucket.try_consume,
        TokenBucket.refill, min_def])
      (by simp [TokenBucket.refill, min_def])⟩

end RateLimit

namespace Bootstrap

/-- Counterexample for C9: after a malformed (unparseable) registration
response the loop retries immediately — its trace contains no sleep action
between the two requests. -/
theorem c9_counterexample_no_sleep_after_malformed_response :
    register_loop 30 0 [.parseErr "bad json", .ok 7] =
      [.request, .request, .registered 7] ∧
    BootAction.sleep2s ∉ register_loop 30 0 [.parseErr "bad json", .ok 7] := by
  refine ⟨by decide, by decide⟩

/-- The loop never issues more than `30 − attempts` further POSTs. -/
theorem register_loop_request_bound (outs : List AttemptOutcome) :
    ∀ a, a < 30 → countRequests (register_loop 30 a outs) ≤ 30 - a := by
  induction outs with
  | nil =>
    intro a ha
    simp [register_loop, countRequests]
  | cons o rest ih =>
    intro a ha
    cases o with
    | ok l =>
      simp only [register_loop, countRequests]
      omega
    | parseErr e =>
      by_cases hb : 30 ≤ a + 1
      · simp only [register_loop, if_pos hb, countRequests]
        omega
      · have hrec := ih (a + 1) (by omega)
        simp only [register_loop, if_neg hb, countRequests]
        omega
    | sendErr e =>
      by_cases hb : 30 ≤ a + 1
      · simp only [register_loop, if_pos hb, countRequests]
        omega
      · have hrec := ih (a + 1) (by omega)
        simp only [register_loop, if_neg hb, countRequests]
        omega

/-- The loop aborts the process exactly when the next `30 − attempts`
outcomes exist and all fail. -/
theorem register_loop_panic_iff (outs : List AttemptOutcome) :
    ∀ a, a < 30 →
      (BootAction.panicked ∈ register_loop 30 a outs ↔
        (30 - a ≤ outs.length ∧
          ∀ o ∈ outs.take (30 - a), o.isOk = false)) := by
  induction outs with
  | nil =>
    intro a ha
    constructor
    · intro h
      simp [register_loop] at h
    · rintro ⟨h1, _⟩
      simp at h1
      omega
  | cons o rest ih =>
    intro a ha
    have htake : 30 - a = (30 - (a + 1)) + 1 := by omega
    cases o with
    | ok l =>
      constructor
      · intro h
        simp [register_loop] at h
      · rintro ⟨h1, h2⟩
        have := h2 (.ok l)
          (by rw [htake, List.take_succ_cons]; exact List.mem_cons_self _ _)
        simp [AttemptOutcome.isOk] at this
    | parseErr e =>
      by_cases hb : 30 ≤ a + 1
      · have h1 : 30 - a = 1 := by omega
        constructor
        · intro _
          refine ⟨by rw [h1]; simp, ?_⟩
          intro o ho
          rw [h1] at ho
          simp [List.take_succ_cons] at ho
          rw [ho]
          rfl
        · intro _
          have hb29 : (29:ℕ) ≤ a := by omega
          simp [register_loop, hb29]
      · have hb29 : ¬ (29:ℕ) ≤ a := by omega
        rw [show (BootAction.panicked ∈
            register_loop 30 a (.parseErr e :: rest)) ↔
            BootAction.panicked ∈ register_loop 30 (a + 1) rest from
            by simp [register_loop, hb29],
          ih (a + 1) (by omega), htake, List.take_succ_cons]
        constructor
        · rintro ⟨hl, hall⟩
          refine ⟨by simp; omega, ?_⟩
          intro o ho
          rcases List.mem_cons.1 ho with h | h
          · rw [h]
            rfl
          · exact hall o h
        · rintro ⟨hl, hall⟩
          refine ⟨by simp at hl; omega, ?_⟩
          intro o ho
          exact hall o (List.mem_cons_of_mem _ ho)
    | sendErr e =>
      by_cases hb : 30 ≤ a + 1
      · have h1 : 30 - a = 1 := by omega
        constructor
        · intro _
          refine ⟨by rw [h1]; simp, ?_⟩
          intro o ho
          rw [h1] at ho
          simp [List.take_succ_cons] at ho
          rw [ho]
          rfl
        · intro _
          have hb29 : (29:ℕ) ≤ a := by omega
          simp [register_loop, hb29]
      · have hb29 : ¬ (29:ℕ) ≤ a := by omega
        rw [show (BootAction.panicked ∈
            register_loop 30 a (.sendErr e :: rest)) ↔
            BootAction.panicked ∈ register_loop 30 (a + 1) rest from
            by simp [register_loop, hb29],
          ih (a + 1) (by omega), htake, List.take_succ_cons]
        constructor
        · rintro ⟨hl, hall⟩
          refine ⟨by simp; omega, ?_⟩
          intro o ho
          rcases List.mem_cons.1 ho with h | h
          · rw [h]
            rfl
          · exact hall o h
        · rintro ⟨hl, hall⟩
          refine ⟨by simp at hl; omega, ?_⟩
          intro o ho
          exact hall o (List.mem_cons_of_mem _ ho)

/-- Claim C9 (amended): the registration loop makes at most 30 POST
attempts; it aborts the process exactly when 30 consecutive attempts fail
(network error or malformed response alike); after a non-final failed
attempt it retries — sleeping two seconds first when the failure was a
network error, and immediately, with no sleep, when the response was merely
malformed. -/
theorem c9_register_retry_behavior :
    (∀ outs : List AttemptOutcome,
      countRequests (register_loop 30 0 outs) ≤ 30) ∧
    (∀ outs : List AttemptOutcome,
      (BootAction.panicked ∈ register_loop 30 0 outs ↔
        (30 ≤ outs.length ∧ ∀ o ∈ outs.take 30, o.isOk = false))) ∧
    (∀ (a : Nat) (e : String) (rest : List AttemptOutcome), a + 1 < 30 →
      register_loop 30 a (.sendErr e :: rest) =
        .request :: .sleep2s :: register_loop 30 (a + 1) rest) ∧
    (∀ (a : Nat) (e : String) (rest : List AttemptOutcome), a + 1 < 30 →
      register_loop 30 a (.parseErr e :: rest) =
        .request :: register_loop 30 (a + 1) rest) := by
  refine ⟨?_, ?_, ?_, ?_⟩
  · intro outs
    simpa using register_loop_request_bound outs 0 (by omega)
  · intro outs
    simpa using register_loop_panic_iff outs 0 (by omega)
  · intro a e rest h
    have hb29 : ¬ (29:ℕ) ≤ a := by omega
    simp [register_loop, hb29]
  · intro a e rest h
    have hb29 : ¬ (29:ℕ) ≤ a := by omega
    simp [register_loop, hb29]

/-- Witness for C9 on a first-attempt network error and a first-attempt
malformed response. -/
theorem c9_register_retry_behavior_witness :
    (0 + 1 < 30) ∧
    register_loop 30 0 [.sendErr "connection refused"] =
      .request :: .sleep2s :: register_loop 30 (0 + 1) [] ∧
    register_loop 30 0 [.parseErr "bad json"] =
      .request :: register_loop 30 (0 + 1) [] :=
  ⟨by decide,
    c9_register_retry_behavior.2.2.1 0 "connection refused" [] (by decide),
    c9_register_retry_behavior.2.2.2 0 "bad json" [] (by decide)⟩

end Bootstrap
